import Mathlib

/-!
Verification development for the go-comic-converter image transform and
pagination pipeline.  The Go sources embedded here are
`internal/pkg/epubimageprocessor/processor.go` (transform engine and worker
pool / image assembler, modelled sequentially since the per-image results
and counts are order-independent) and
`internal/pkg/epubtemplates/content.go` (manifest and spread/spine
assembler).  Machine images are modelled by their bounds (width, height)
together with an abstract auto-crop content summary; `float32`/`float64`
arithmetic is modelled exactly over `ℚ`.
-/

/-! ## Configuration (epuboptions) -/

structure CropOptions where
  Enabled : Bool
  Left : Int
  Up : Int
  Right : Int
  Bottom : Int
  Limit : Int
  SkipIfLimitReached : Bool
  deriving DecidableEq, Inhabited, Repr

structure ViewOptions where
  Width : Nat
  Height : Nat
  PortraitOnly : Bool
  deriving DecidableEq, Inhabited, Repr

structure ImageOptions where
  Crop : CropOptions
  View : ViewOptions
  Format : String
  Quality : Nat
  Manga : Bool
  HasCover : Bool
  AutoSplitDoublePage : Bool
  KeepDoublePageIfSplit : Bool
  KeepSplitDoublePageAspect : Bool
  NoBlankImage : Bool
  AutoRotate : Bool
  AutoContrast : Bool
  Contrast : Int
  Brightness : Int
  Resize : Bool
  GrayScale : Bool
  GrayScaleMode : Nat
  AppleBookCompatibility : Bool
  deriving DecidableEq, Inhabited, Repr

structure EPUBOptions where
  Dry : Bool
  Quiet : Bool
  Json : Bool
  Image : ImageOptions
  deriving DecidableEq, Inhabited, Repr

/-! ## Images and tasks -/

/-- A decoded Go image, abstracted to its bounds plus a content summary:
`autoCrop` gives, for the examined bounds, the bounding box of
non-background content that the auto-crop filter would detect
(`(0, 0)` when the page is blank). -/
structure GoImage where
  srcW : Nat
  srcH : Nat
  autoCrop : Nat × Nat → Nat × Nat

/-- One task pulled by a worker (`epubimageprocessor.task`). -/
structure task where
  Id : Nat
  Path : String
  Name : String
  Image : GoImage
  Error : Option String

/-- `epubimage.EPUBImage`.  The raw pixel buffer is abstracted to its
bounds (`none` once released). -/
structure EPUBImage where
  Id : Nat
  Part : Nat
  Raw : Option (Nat × Nat)
  Width : Nat
  Height : Nat
  IsBlank : Bool
  DoublePage : Bool
  Path : String
  Name : String
  Format : String
  OriginalAspect : ℚ
  Error : Option String
  Position : String
  deriving DecidableEq, Inhabited, Repr

/-- Modelled from the spec: stable derived key referencing the page's
image resource (the `epubimage` key helpers are not under `src/`; the spec
only requires stable identifiers derived from `id` and `part`). -/
def EPUBImage.ImgKey (img : EPUBImage) : String :=
  "img_" ++ Nat.repr img.Id ++ "_p" ++ Nat.repr img.Part

/-- Modelled from the spec: stable derived key for the wrapping page
resource. -/
def EPUBImage.PageKey (img : EPUBImage) : String :=
  "page_" ++ Nat.repr img.Id ++ "_p" ++ Nat.repr img.Part

/-- Modelled from the spec: stable derived key for the page's blank
spacer resource. -/
def EPUBImage.SpaceKey (img : EPUBImage) : String :=
  "space_" ++ Nat.repr img.Id ++ "_p" ++ Nat.repr img.Part

/-- Modelled from the spec: stable path of the image resource. -/
def EPUBImage.ImgPath (img : EPUBImage) : String :=
  "Images/" ++ Nat.repr img.Id ++ "_p" ++ Nat.repr img.Part ++ "." ++ img.Format

/-- Modelled from the spec: stable path of the wrapping page resource. -/
def EPUBImage.PagePath (img : EPUBImage) : String :=
  "Text/" ++ Nat.repr img.Id ++ "_p" ++ Nat.repr img.Part ++ ".xhtml"

/-- Modelled from the spec: stable path of the spacer resource. -/
def EPUBImage.SpacePath (img : EPUBImage) : String :=
  "Text/space_" ++ Nat.repr img.Id ++ "_p" ++ Nat.repr img.Part ++ ".xhtml"

/-- Modelled from the spec: media type of the image resource. -/
def EPUBImage.MediaType (img : EPUBImage) : String :=
  "image/" ++ img.Format

/-! ## Transform engine (processor.go, transformImage) -/

/-- Modelled from the spec: bounds effect of
`epubimagefilters.CropSplitDoublePage` (not under `src/`): cut the source
in half along the vertical center, keeping the requested half. -/
def cropSplitDoublePageBounds (right : Bool) (b : Nat × Nat) : Nat × Nat :=
  if right then (b.1 - b.1 / 2, b.2) else (b.1 / 2, b.2)

/-- Modelled from the spec: bounds effect of the third-party
`gift.ResizeToFit` filter: shrink, preserving aspect ratio, so the result
fits within the viewport; an image already fitting is left unchanged. -/
def resizeToFitBounds (w h : Nat) (b : Nat × Nat) : Nat × Nat :=
  if b.1 ≤ w ∧ b.2 ≤ h then b
  else if b.1 * h ≤ b.2 * w then (max 1 (b.1 * h / b.2), h)
  else (w, max 1 (b.2 * w / b.1))

/-- Modelled from the spec: bounds effect of `epubimagefilters.Pixel`
(not under `src/`): a degenerate empty image becomes a 1×1 placeholder. -/
def pixelBounds (b : Nat × Nat) : Nat × Nat :=
  if b.1 == 0 || b.2 == 0 then (1, 1) else b

/-- Destination bounds of the filter chain at the point where
`transformImage` computes `dstBounds` (`g.Bounds(src.Bounds())` after the
pre-crop split, the conditional auto-crop, and the post-crop split;
before rotation/tone/resize/grayscale filters are added). -/
def transformDstBounds (e : EPUBOptions) (input : task) (part : Nat)
    (right : Bool) : Nat × Nat :=
  let src := input.Image
  let b0 := (src.srcW, src.srcH)
  -- In portrait only, we don't need to keep aspect ratio between each split.
  let b1 := if part > 0 && !e.Image.KeepSplitDoublePageAspect then
      cropSplitDoublePageBounds right b0
    else b0
  -- Lookup for margin if crop is enabled or if we want to remove blank image
  let b2 :=
    if e.Image.Crop.Enabled || e.Image.NoBlankImage then
      let fRect := src.autoCrop b1
      -- detect if blank image
      let isBlank := fRect.1 == 0 && fRect.2 == 0
      if e.Image.Crop.Enabled || (e.Image.NoBlankImage && isBlank) then fRect
      else b1
    else b1
  -- With landscape support, we keep aspect ratio between each split.
  if part > 0 && e.Image.KeepSplitDoublePageAspect then
    cropSplitDoublePageBounds right b2
  else b2

/-- `transformImage` from processor.go, at the level of bounds and flags.
Tone and grayscale filters do not change bounds and are modelled
separately (`grayscaleColorFunc`). -/
def transformImage (e : EPUBOptions) (input : task) (part : Nat)
    (right : Bool) : EPUBImage :=
  let src := input.Image
  let dstBounds := transformDstBounds e input part right
  -- Original && cropped version need to be landscape oriented.
  -- Only part 0 can be a double page.
  let isDoublePage :=
    part == 0 && decide (src.srcW > src.srcH) && decide (dstBounds.1 > dstBounds.2)
  let b4 := if e.Image.AutoRotate && isDoublePage then (dstBounds.2, dstBounds.1)
    else dstBounds
  let b5 := if e.Image.Resize then
      resizeToFitBounds e.Image.View.Width e.Image.View.Height b4
    else b4
  let b6 := pixelBounds b5
  { Id := input.Id
    Part := part
    Raw := some b6
    Width := b6.1
    Height := b6.2
    IsBlank := b6.1 == 1 && b6.2 == 1
    DoublePage := isDoublePage
    Path := input.Path
    Name := input.Name
    Format := e.Image.Format
    OriginalAspect := (src.srcH : ℚ) / (src.srcW : ℚ)
    Error := input.Error
    Position := "" }

/-- Grayscale color functions of the transform engine (processor.go,
grayscale step), over exact rationals: mode 1 is the arithmetic mean,
mode 2 the perceptual luma; the default mode is the third-party
`gift.Grayscale` desaturation (0.299/0.587/0.114, modelled from the
library's documented weights). -/
def grayscaleColorFunc (mode : Nat) (r0 g0 b0 a0 : ℚ) : ℚ × ℚ × ℚ × ℚ :=
  match mode with
  | 1 =>
    let y := (r0 + g0 + b0) / 3
    (y, y, y, a0)
  | 2 =>
    let y := 0.2126 * r0 + 0.7152 * g0 + 0.0722 * b0
    (y, y, y, a0)
  | _ =>
    let y := 0.299 * r0 + 0.587 * g0 + 0.114 * b0
    (y, y, y, a0)

/-! ## Worker pool / image assembler (processor.go, Load)

The concurrent pool is modelled sequentially: workers emit, per input
task, a deterministic bundle of images, and the consuming loop counts and
filters them.  Arrival order across tasks is irrelevant to the counted
and filtered quantities stated below. -/

/-- The condition under which the worker does NOT emit the unsplit
`part=0` variant (processor.go: "do not keep double page if requested"). -/
def part0Withheld (e : EPUBOptions) (input : task) : Bool :=
  (transformImage e input 0 e.Image.Manga).DoublePage && decide (0 < input.Id) &&
    e.Image.AutoSplitDoublePage && !e.Image.KeepDoublePageIfSplit

/-- The condition under which the worker produces the two split variants
(negation of the `continue` guard in processor.go: split required, a
double page, and not the cover). -/
def splitApplies (e : EPUBOptions) (input : task) : Bool :=
  e.Image.AutoSplitDoublePage && (transformImage e input 0 e.Image.Manga).DoublePage &&
    !(e.Image.HasCover && decide (input.Id = 0))

/-- Images a worker emits for one input task, in emission order: the
`part=0` variant unless withheld (raw buffer released except for the
cover), then the two split halves when splitting applies (first half with
the manga flag, second half with its complement). -/
def processInput (e : EPUBOptions) (input : task) : List EPUBImage :=
  let img := transformImage e input 0 e.Image.Manga
  (if !part0Withheld e input then
      [if decide (0 < img.Id) then { img with Raw := none } else img]
    else [])
  ++ (if splitApplies e input then
      [{ transformImage e input 1 e.Image.Manga with Raw := none },
       { transformImage e input 2 (!e.Image.Manga) with Raw := none }]
    else [])

/-- Everything the worker pool sends over the output channel. -/
def loadOutputs (e : EPUBOptions) (tasks : List task) : List EPUBImage :=
  tasks.flatMap (processInput e)

/-- Total of the `bar.Add(1)` calls of the consuming loop: one per
`part=0` image observed on the output channel. -/
def progressIncrements (e : EPUBOptions) (tasks : List task) : Nat :=
  ((loadOutputs e tasks).filter fun img => img.Part == 0).length

/-- The assembled list after the consuming loop's blank filter. -/
def loadFiltered (e : EPUBOptions) (tasks : List task) : List EPUBImage :=
  (loadOutputs e tasks).filter fun img => !(e.Image.NoBlankImage && img.IsBlank)

/-- The record Load appends per input in dry mode (only Id, Path, Name
and the configured format are carried). -/
def dryImage (e : EPUBOptions) (t : task) : EPUBImage :=
  { Id := t.Id
    Part := 0
    Raw := none
    Width := 0
    Height := 0
    IsBlank := false
    DoublePage := false
    Path := t.Path
    Name := t.Name
    Format := e.Image.Format
    OriginalAspect := 0
    Error := none
    Position := "" }

def errNoImagesFound : String := "no images found"

/-- `Load` from processor.go (storage persistence is modelled as always
succeeding; a persistence failure is process-fatal in the source and
never reaches a return value). -/
def loadModel (e : EPUBOptions) (tasks : List task) :
    Except String (List EPUBImage) :=
  if e.Dry then Except.ok (tasks.map (dryImage e))
  else
    let images := loadFiltered e tasks
    if images.isEmpty then Except.error errNoImagesFound
    else Except.ok images

/-! ## Spread/spine assembler and manifest (content.go) -/

/-- `Content` from content.go (the fields feeding the manifest and the
spine). -/
structure Content where
  Title : String
  HasTitlePage : Bool
  UID : String
  Author : String
  Publisher : String
  UpdatedAt : String
  ImageOptions : ImageOptions
  Cover : EPUBImage
  Images : List EPUBImage
  Current : Nat
  Total : Nat
  deriving Inhabited

/-- One `itemref` tag of the spine. -/
structure SpineItemref where
  idref : String
  properties : String
  deriving DecidableEq, Inhabited, Repr

/-- One `item` tag of the manifest. -/
structure ManifestItem where
  id : String
  href : String
  properties : String
  mediaType : String
  deriving DecidableEq, Inhabited, Repr

/-- The `getSpread` closure of `getSpineAuto`, as a state function:
given the carried `isOnTheRight` state, toggle it, then either center a
double page (resetting the state to `!manga`) or return the side. -/
def getSpread (manga isOnTheRight isDoublePage : Bool) : String × Bool :=
  let isOnTheRight := !isOnTheRight
  if isDoublePage then
    -- Center the double page then start back to comic mode (manga/normal)
    ("rendition:page-spread-center", !manga)
  else if isOnTheRight then
    ("rendition:page-spread-right", isOnTheRight)
  else
    ("rendition:page-spread-left", isOnTheRight)

/-- The `getSpreadBlank` closure: `getSpread(false)` plus the
blank-layout marker. -/
def getSpreadBlank (manga isOnTheRight : Bool) : String × Bool :=
  ((getSpread manga isOnTheRight false).1 ++ " layout-blank",
   (getSpread manga isOnTheRight false).2)

/-- Initial value of the carried `isOnTheRight` state in `getSpineAuto`. -/
def spineInit (o : ImageOptions) : Bool :=
  let isOnTheRight := !o.Manga
  if o.AppleBookCompatibility then !isOnTheRight else isOnTheRight

/-- The image loop of `getSpineAuto`: returns the spine tags, the images
with their `Position` recorded, and the final carried state. -/
def spineWalk (manga : Bool) : Bool → List EPUBImage →
    List SpineItemref × List EPUBImage × Bool
  | st, [] => ([], [], st)
  | st, img :: rest =>
    let pre : List SpineItemref × Bool :=
      if (img.DoublePage || img.Part == 1) && (manga == st) then
        ([⟨img.SpaceKey, (getSpreadBlank manga st).1⟩], (getSpreadBlank manga st).2)
      else ([], st)
    -- register position for style adjustment
    let sp := getSpread manga pre.2 img.DoublePage
    let tail1 := spineWalk manga sp.2 rest
    (pre.1 ++ ⟨img.PageKey, sp.1⟩ :: tail1.1,
     { img with Position := sp.1 } :: tail1.2.1,
     tail1.2.2)

/-- `getSpineAuto` from content.go: title-page handling, the image walk,
and the trailing spacer (the Go `o.Images[len(o.Images)-1]` indexing of a
non-empty list is modelled by `getLastD`). -/
def getSpineAuto (o : Content) : List SpineItemref × List EPUBImage :=
  let manga := o.ImageOptions.Manga
  let st0 := spineInit o.ImageOptions
  let titlePart : List SpineItemref × Bool :=
    if o.HasTitlePage then
      if !o.ImageOptions.AppleBookCompatibility then
        let b := getSpreadBlank manga st0
        let p := getSpread manga b.2 false
        ([⟨"space_title", b.1⟩, ⟨"page_title", p.1⟩], p.2)
      else
        let p := getSpread manga st0 true
        ([⟨"page_title", p.1⟩], p.2)
    else ([], st0)
  let w := spineWalk manga titlePart.2 o.Images
  let tags := titlePart.1 ++ w.1
  let tags :=
    if manga == w.2.2 then
      tags ++ [⟨(w.2.1.getLastD default).SpaceKey, (getSpread manga w.2.2 false).1⟩]
    else tags
  (tags, w.2.1)

/-- The `withSpace` argument `getManifest` passes to `addTag` for an
image. -/
def manifestWithSpace (o : Content) (lastImage img : EPUBImage) : Bool :=
  !o.ImageOptions.View.PortraitOnly &&
    (img.DoublePage ||
      (!o.ImageOptions.KeepDoublePageIfSplit && img.Part == 1) ||
      (img.Part == 0 && decide (img = lastImage)))

/-- Fixed manifest items plus the title-page items (content.go,
getManifest). -/
def manifestBase (o : Content) : List ManifestItem :=
  [⟨"toc", "toc.xhtml", "nav", "application/xhtml+xml"⟩,
   ⟨"css", "Text/style.css", "", "text/css"⟩,
   ⟨"page_cover", "Text/cover.xhtml", "", "application/xhtml+xml"⟩,
   ⟨"img_cover", "Images/cover.jpeg", "", "image/jpeg"⟩]
  ++ (if o.HasTitlePage then
      [⟨"page_title", "Text/title.xhtml", "", "application/xhtml+xml"⟩,
       ⟨"img_title", "Images/title.jpeg", "", "image/jpeg"⟩]
      ++ (if !o.ImageOptions.View.PortraitOnly then
          [⟨"space_title", "Text/space_title.xhtml", "", "application/xhtml+xml"⟩]
        else [])
    else [])

/-- The `imageTags` accumulator of `getManifest`. -/
def manifestImageTags (o : Content) : List ManifestItem :=
  o.Images.map fun img => ⟨img.ImgKey, img.ImgPath, "", img.MediaType⟩

/-- The `pageTags` accumulator of `getManifest`. -/
def manifestPageTags (o : Content) : List ManifestItem :=
  o.Images.map fun img => ⟨img.PageKey, img.PagePath, "", "application/xhtml+xml"⟩

/-- The `spaceTags` accumulator of `getManifest`: one spacer item per
image whose `withSpace` flag is set. -/
def manifestSpaceTags (o : Content) : List ManifestItem :=
  (o.Images.filter fun img =>
      manifestWithSpace o (o.Images.getLastD default) img).map
    fun img => ⟨img.SpaceKey, img.SpacePath, "", "application/xhtml+xml"⟩

/-- `getManifest` from content.go. -/
def getManifest (o : Content) : List ManifestItem :=
  manifestBase o ++ manifestImageTags o ++ manifestPageTags o ++ manifestSpaceTags o

/-! ## Concrete fixtures -/

def imgSingle1 : EPUBImage := { (default : EPUBImage) with Id := 1 }

def imgDouble2 : EPUBImage := { (default : EPUBImage) with Id := 2, DoublePage := true }

def imgPart1 : EPUBImage := { (default : EPUBImage) with Id := 1, Part := 1 }

def contentBase : Content :=
  { Title := "t"
    HasTitlePage := false
    UID := "u"
    Author := "a"
    Publisher := "pub"
    UpdatedAt := "d"
    ImageOptions := default
    Cover := default
    Images := []
    Current := 1
    Total := 1 }

def oPart1Single : Content := { contentBase with Images := [imgPart1] }

def oSingleThenDouble : Content := { contentBase with Images := [imgSingle1, imgDouble2] }

def oMangaFiveSingles : Content :=
  { contentBase with
      ImageOptions := { (default : ImageOptions) with Manga := true }
      Images := List.replicate 5 (default : EPUBImage) }

def oLastSingle : Content :=
  { contentBase with
      ImageOptions := { (default : ImageOptions) with KeepDoublePageIfSplit := true }
      Images := [imgSingle1] }

def imgLandscape : GoImage := { srcW := 200, srcH := 100, autoCrop := fun b => b }

def taskLandscape : task :=
  { Id := 1, Path := "p1", Name := "n1", Image := imgLandscape, Error := none }

def optsPlain : EPUBOptions := { Dry := false, Quiet := true, Json := false, Image := default }

def optsDry : EPUBOptions := { optsPlain with Dry := true }

def optsNoBlank : EPUBOptions :=
  { optsPlain with Image := { (default : ImageOptions) with NoBlankImage := true } }

def optsSplitNoKeep : EPUBOptions :=
  { optsPlain with
      Image := { (default : ImageOptions) with HasCover := true, AutoSplitDoublePage := true } }

/-! ## Helper lemmas and spec-side descriptions -/

/-- Spec-side shorthand for a side position. -/
def posString (b : Bool) : String :=
  if b then "rendition:page-spread-right" else "rendition:page-spread-left"

/-- Spec-side description of an alternating run of side positions
starting from carried state `st` (the spec: positions alternate strictly
between right and left, the first page's side fully determined by the
initial state). -/
def specAlternatingRun : Bool → Nat → List String
  | _, 0 => []
  | st, n + 1 => posString (!st) :: specAlternatingRun (!st) n

theorem getSpread_false_eq (manga st : Bool) :
    getSpread manga st false = (posString (!st), !st) := by
  cases st <;> rfl

theorem getSpread_true_eq (manga st : Bool) :
    getSpread manga st true = ("rendition:page-spread-center", !manga) := rfl

theorem transformImage_Part (e : EPUBOptions) (input : task) (part : Nat)
    (right : Bool) : (transformImage e input part right).Part = part := rfl

theorem transformImage_Id (e : EPUBOptions) (input : task) (part : Nat)
    (right : Bool) : (transformImage e input part right).Id = input.Id := rfl

/-! ## C9 -/

/-- C9: grayscale mode 1 is the arithmetic mean of the channels, so the
channel triple (0, 0, 255) maps to the gray value 255/3 = 85; grayscale
mode 2 is the luma 0.2126·r + 0.7152·g + 0.0722·b, whose weights sum to
1, so a pure white pixel is mapped to the same white pixel. -/
theorem grayscale_formulas :
    (∀ a : ℚ, grayscaleColorFunc 1 0 0 255 a = (85, 85, 85, a))
    ∧ ((0.2126 : ℚ) + 0.7152 + 0.0722 = 1)
    ∧ (∀ a : ℚ, grayscaleColorFunc 2 1 1 1 a = (1, 1, 1, a)) := by
  refine ⟨fun a => ?_, by norm_num, fun a => ?_⟩ <;>
    simp [grayscaleColorFunc] <;> norm_num

/-! ## C10 -/

/-- C10: with the Dry option, Load performs no transformation or
persistence and returns one record per input task carrying only Id, Path,
Name and Format; an empty input stream yields an empty list with no
error (the fatal no-images check belongs to the non-dry path only). -/
theorem load_dry_mode (e : EPUBOptions) (tasks : List task) (h : e.Dry = true) :
    loadModel e tasks = Except.ok (tasks.map fun t =>
      { Id := t.Id
        Part := 0
        Raw := none
        Width := 0
        Height := 0
        IsBlank := false
        DoublePage := false
        Path := t.Path
        Name := t.Name
        Format := e.Image.Format
        OriginalAspect := 0
        Error := none
        Position := "" })
    ∧ (tasks = [] → loadModel e tasks = Except.ok []) := by
  constructor
  · simp [loadModel, h, dryImage]
  · intro ht
    simp [loadModel, h, ht]

theorem load_dry_mode_witness :
    loadModel optsDry [taskLandscape] = Except.ok
      [{ Id := 1
         Part := 0
         Raw := none
         Width := 0
         Height := 0
         IsBlank := false
         DoublePage := false
         Path := "p1"
         Name := "n1"
         Format := ""
         OriginalAspect := 0
         Error := none
         Position := "" }] := by
  simpa using (load_dry_mode optsDry [taskLandscape] rfl).1

/-! ## C7 -/

/-- C7: in the non-dry path, when blank-removal is enabled the assembled
list is exactly the emitted images with every blank-flagged image
dropped, and an empty list after filtering makes Load fail with the fatal
"no images found" error rather than return an empty list. -/
theorem load_blank_filtering (e : EPUBOptions) (tasks : List task)
    (h : e.Dry = false) :
    (e.Image.NoBlankImage = true →
      loadFiltered e tasks = (loadOutputs e tasks).filter fun img => !img.IsBlank)
    ∧ (loadFiltered e tasks = [] →
      loadModel e tasks = Except.error errNoImagesFound) := by
  constructor
  · intro hb
    simp [loadFiltered, hb]
  · intro hf
    simp [loadModel, h, hf]

theorem load_blank_filtering_witness :
    loadModel optsNoBlank [] = Except.error errNoImagesFound :=
  (load_blank_filtering optsNoBlank [] rfl).2 rfl

@[simp] theorem part_update_raw (img : EPUBImage) :
    ({ img with Raw := none } : EPUBImage).Part = img.Part := rfl

/-! ## C2 -/

/-- C2: per input task, the worker emits the unsplit `part=0` variant
exactly unless the page was detected double, its id is positive,
auto-split is enabled and keep-double-page-if-split is disabled; and it
emits the two split variants (part 1 and part 2) exactly when auto-split
is enabled, the page was detected double, and the page is not the cover
(not both has-cover and id = 0). -/
theorem processInput_emission (e : EPUBOptions) (input : task) :
    (((processInput e input).any fun img => img.Part == 0) =
      !((transformImage e input 0 e.Image.Manga).DoublePage && decide (0 < input.Id) &&
        e.Image.AutoSplitDoublePage && !e.Image.KeepDoublePageIfSplit))
    ∧ (((processInput e input).any fun img => img.Part == 1) =
      (e.Image.AutoSplitDoublePage && (transformImage e input 0 e.Image.Manga).DoublePage &&
        !(e.Image.HasCover && decide (input.Id = 0))))
    ∧ (((processInput e input).any fun img => img.Part == 2) =
      (e.Image.AutoSplitDoublePage && (transformImage e input 0 e.Image.Manga).DoublePage &&
        !(e.Image.HasCover && decide (input.Id = 0)))) := by
  have e1 : ((transformImage e input 0 e.Image.Manga).DoublePage && decide (0 < input.Id) &&
      e.Image.AutoSplitDoublePage && !e.Image.KeepDoublePageIfSplit) = part0Withheld e input := rfl
  have e2 : (e.Image.AutoSplitDoublePage && (transformImage e input 0 e.Image.Manga).DoublePage &&
      !(e.Image.HasCover && decide (input.Id = 0))) = splitApplies e input := rfl
  rw [e1, e2]
  cases h1 : part0Withheld e input <;> cases h2 : splitApplies e input <;>
    by_cases hc : 0 < input.Id <;>
      simp [processInput, h1, h2, hc, transformImage_Part, transformImage_Id]

/-! ## C6 -/

/-- The number of `part=0` images a single input contributes to the
output channel: none when withheld, one otherwise. -/
theorem processInput_part0_count (e : EPUBOptions) (t : task) :
    ((processInput e t).filter fun img => img.Part == 0).length =
      if part0Withheld e t then 0 else 1 := by
  cases h1 : part0Withheld e t <;> cases h2 : splitApplies e t <;>
    by_cases hc : 0 < t.Id <;>
      simp [processInput, h1, h2, hc, transformImage_Part, transformImage_Id]

/-- C6 counterexample: for a single landscape double page with id 1,
auto-split enabled and keep-double-page-if-split disabled, the `part=0`
variant is withheld before it ever reaches the output channel, so the
progress counter is never incremented for that source index. -/
theorem progress_withheld_counterexample :
    progressIncrements optsSplitNoKeep [taskLandscape] = 0
    ∧ List.length [taskLandscape] = 1
    ∧ progressIncrements optsSplitNoKeep [taskLandscape] ≠
        List.length [taskLandscape] := by
  refine ⟨by decide, rfl, by decide⟩

/-- C6 amended: the progress counter is incremented exactly once per
source index whose `part=0` variant is emitted (withholding a double
page's unsplit variant skips the increment; blank filtering does not,
since the counter is updated on the raw output stream before the blank
check). -/
theorem progress_once_per_emitted_part0 (e : EPUBOptions) (tasks : List task) :
    progressIncrements e tasks = (tasks.filter fun t => !part0Withheld e t).length := by
  induction tasks with
  | nil => rfl
  | cons t ts ih =>
    have h := processInput_part0_count e t
    simp only [progressIncrements, loadOutputs, List.flatMap_cons, List.filter_append,
      List.length_append, List.filter_cons] at ih ⊢
    rw [h, ih]
    cases hw : part0Withheld e t <;> simp [hw, Nat.add_comm]

/-! ## C5 -/

/-- C5: the transform engine flags an image as a double page exactly when
`part=0` and the source bounds are wider than tall and the destination
bounds of the crop stage of the filter chain are wider than tall; hence
parts 1 and 2 are never flagged double, and a landscape source cropped
into portrait shape is never flagged double. -/
theorem transformImage_doublePage :
    (∀ (e : EPUBOptions) (input : task) (part : Nat) (right : Bool),
      ((transformImage e input part right).DoublePage = true ↔
        part = 0 ∧ input.Image.srcW > input.Image.srcH ∧
          (transformDstBounds e input part right).1 >
            (transformDstBounds e input part right).2))
    ∧ (∀ (e : EPUBOptions) (input : task) (part : Nat) (right : Bool),
        part ≠ 0 → (transformImage e input part right).DoublePage = false)
    ∧ (∀ (e : EPUBOptions) (input : task) (part : Nat) (right : Bool),
        ¬ (transformDstBounds e input part right).1 >
            (transformDstBounds e input part right).2 →
          (transformImage e input part right).DoublePage = false) := by
  have hD : ∀ (e : EPUBOptions) (input : task) (part : Nat) (right : Bool),
      (transformImage e input part right).DoublePage =
        (part == 0 && decide (input.Image.srcW > input.Image.srcH) &&
          decide ((transformDstBounds e input part right).1 >
            (transformDstBounds e input part right).2)) := fun _ _ _ _ => rfl
  refine ⟨fun e i p r => ?_, fun e i p r hp => ?_, fun e i p r hd => ?_⟩
  · rw [hD]
    simp [and_assoc]
  · rw [hD]
    simp [hp]
  · rw [hD]
    simp [hd]

theorem transformImage_doublePage_witness :
    (transformImage optsPlain taskLandscape 1 true).DoublePage = false :=
  transformImage_doublePage.2.1 optsPlain taskLandscape 1 true (by decide)

@[simp] theorem position_update_pos (img : EPUBImage) (s : String) :
    ({ img with Position := s } : EPUBImage).Position = s := rfl

@[simp] theorem position_update_double (img : EPUBImage) (s : String) :
    ({ img with Position := s } : EPUBImage).DoublePage = img.DoublePage := rfl

@[simp] theorem position_update_part (img : EPUBImage) (s : String) :
    ({ img with Position := s } : EPUBImage).Part = img.Part := rfl

theorem posString_cases (b : Bool) :
    posString b = "rendition:page-spread-right" ∨
      posString b = "rendition:page-spread-left" := by
  cases b <;> simp [posString]

/-- Positions of a run of single pages: the walk produces exactly the
alternating run determined by the carried state. -/
theorem spineWalk_singles (manga : Bool) (imgs : List EPUBImage) :
    ∀ st : Bool, (∀ img ∈ imgs, img.DoublePage = false ∧ img.Part = 0) →
      ((spineWalk manga st imgs).2.1.map fun img => img.Position) =
        specAlternatingRun st imgs.length := by
  induction imgs with
  | nil => intro st h; rfl
  | cons a rest ih =>
    intro st h
    obtain ⟨hd, hp⟩ := h a (by simp)
    have hrest : ∀ img ∈ rest, img.DoublePage = false ∧ img.Part = 0 :=
      fun img hm => h img (by simp [hm])
    simp [spineWalk, hd, hp, getSpread_false_eq, specAlternatingRun, ih (!st) hrest]

theorem specAlternatingRun_chain (n : Nat) :
    ∀ st : Bool, List.Chain' (fun a b => a ≠ b) (specAlternatingRun st n) := by
  induction n with
  | zero => intro st; simp [specAlternatingRun]
  | succ m ih =>
    intro st
    rw [specAlternatingRun, List.chain'_cons']
    refine ⟨?_, ih (!st)⟩
    intro b hb
    rcases m with _ | k
    · simp [specAlternatingRun] at hb
    · rw [show specAlternatingRun (!st) (k + 1) =
          posString (!(!st)) :: specAlternatingRun (!(!st)) k from rfl] at hb
      simp only [List.head?_cons, Option.mem_def, Option.some.injEq] at hb
      subst hb
      rw [Bool.not_not]
      cases st <;> decide

/-! ## C4 -/

/-- C4: the initial carried `isOnTheRight` state is true exactly when
manga is off, inverted again under reader (Apple Books) compatibility
(manga plus compatibility gives true); a run of single non-double
`part=0` pages with no title page receives strictly alternating
right/left positions determined by the carried state; in particular
manga mode with compatibility off gives [right, left, right, left, …]. -/
theorem spineAuto_alternation :
    (∀ o : ImageOptions,
      spineInit o = (if o.AppleBookCompatibility then o.Manga else !o.Manga))
    ∧ (∀ (manga st : Bool) (imgs : List EPUBImage),
        (∀ img ∈ imgs, img.DoublePage = false ∧ img.Part = 0) →
          ((spineWalk manga st imgs).2.1.map fun img => img.Position) =
              specAlternatingRun st imgs.length
          ∧ List.Chain' (fun a b => a ≠ b)
              ((spineWalk manga st imgs).2.1.map fun img => img.Position))
    ∧ ((getSpineAuto oMangaFiveSingles).2.map fun img => img.Position) =
        ["rendition:page-spread-right", "rendition:page-spread-left",
         "rendition:page-spread-right", "rendition:page-spread-left",
         "rendition:page-spread-right"] := by
  refine ⟨?_, ?_, by decide⟩
  · intro o
    cases h : o.AppleBookCompatibility <;> simp [spineInit, h]
  · intro manga st imgs h
    have hm := spineWalk_singles manga imgs st h
    exact ⟨hm, hm ▸ specAlternatingRun_chain imgs.length st⟩

theorem spineAuto_alternation_witness :
    ((spineWalk true false (List.replicate 2 (default : EPUBImage))).2.1.map
        fun img => img.Position) = specAlternatingRun false 2 :=
  (spineAuto_alternation.2.1 true false (List.replicate 2 default) (by decide)).1

/-! ## C1 -/

/-- C1 counterexample: a `part=1` half that is not itself flagged double
(as the transform engine guarantees for split halves) is positioned by
`getSpread(false)` like a single page — here it receives the left
position, not center. -/
theorem spine_part1_center_counterexample :
    ¬ (∀ img ∈ (getSpineAuto oPart1Single).2, img.Part = 1 →
        img.Position = "rendition:page-spread-center") := by
  decide

/-- C1 amended: a double-page spread is forced to position center and
resets the carried state to the negation of the manga flag; a `part=1`
page, which is never flagged double, instead receives a right or left
position exactly like a single page (only the blank-spacer insertion
treats it like a double page). -/
theorem spineWalk_doublePage_center :
    (∀ manga st : Bool,
      getSpread manga st true = ("rendition:page-spread-center", !manga))
    ∧ (∀ (manga st : Bool) (imgs : List EPUBImage) (img : EPUBImage),
        img ∈ (spineWalk manga st imgs).2.1 →
          (img.DoublePage = true → img.Position = "rendition:page-spread-center")
          ∧ (img.DoublePage = false →
              img.Position = "rendition:page-spread-right" ∨
                img.Position = "rendition:page-spread-left")) := by
  refine ⟨fun manga st => rfl, ?_⟩
  intro manga st imgs
  induction imgs generalizing st with
  | nil =>
    intro img h
    simp [spineWalk] at h
  | cons a rest ih =>
    intro img h
    simp only [spineWalk, List.mem_cons] at h
    rcases h with h | h
    · subst h
      constructor
      · intro hd
        simp only [position_update_double] at hd
        simp [hd, getSpread_true_eq]
      · intro hd
        simp only [position_update_double] at hd
        simp only [position_update_pos]
        rw [hd, getSpread_false_eq]
        exact posString_cases _
    · exact ih _ img h

theorem spineWalk_doublePage_center_witness :
    ({ imgDouble2 with Position := "rendition:page-spread-center" } : EPUBImage).Position =
      "rendition:page-spread-center" :=
  (spineWalk_doublePage_center.2 false true [imgDouble2]
      { imgDouble2 with Position := "rendition:page-spread-center" }
      (by decide)).1 (by decide)

/-! ## C3 -/

/-- C3 counterexample: the blank spacer inserted before a double page
carries the next alternation side plus the blank-layout marker, not
center — here `right layout-blank`. -/
theorem spine_spacer_center_counterexample :
    ((⟨imgDouble2.SpaceKey, "rendition:page-spread-right layout-blank"⟩ : SpineItemref) ∈
        (getSpineAuto oSingleThenDouble).1)
    ∧ ¬ ((⟨imgDouble2.SpaceKey, "rendition:page-spread-center layout-blank"⟩ : SpineItemref) ∈
        (getSpineAuto oSingleThenDouble).1) := by
  exact ⟨by decide, by decide⟩

/-- C3 amended: a blank spacer is inserted immediately before a page
exactly when the page is a double page or a `part=1` half and the manga
flag equals the current carried state; the spacer carries the toggled
right/left side position (consuming one alternation step) together with
the blank-layout marker — not center. -/
theorem spineWalk_blank_spacer (manga st : Bool) (img : EPUBImage)
    (rest : List EPUBImage) :
    (((img.DoublePage || img.Part == 1) && (manga == st)) = true →
      (spineWalk manga st (img :: rest)).1.head? =
        some ⟨img.SpaceKey, posString (!st) ++ " layout-blank"⟩)
    ∧ (((img.DoublePage || img.Part == 1) && (manga == st)) = false →
      (spineWalk manga st (img :: rest)).1.head? =
        some ⟨img.PageKey, (getSpread manga st img.DoublePage).1⟩) := by
  constructor <;> intro h <;>
    simp [spineWalk, h, getSpreadBlank, getSpread_false_eq]

theorem spineWalk_blank_spacer_witness :
    (spineWalk false false [imgDouble2]).1.head? =
      some ⟨imgDouble2.SpaceKey, posString (!false) ++ " layout-blank"⟩ :=
  (spineWalk_blank_spacer false false imgDouble2 []).1 (by decide)

/-! ## C8 -/

/-- C8 counterexample: the manifest also grants a spacer item to the
last image when its `part` is 0, even when it is a plain single page. -/
theorem manifest_spacer_counterexample :
    ¬ (∀ img ∈ oLastSingle.Images,
        ((manifestSpaceTags oLastSingle).any fun t => t.id == img.SpaceKey) = true →
          img.DoublePage = true ∨
            (oLastSingle.ImageOptions.KeepDoublePageIfSplit = false ∧ img.Part = 1)) := by
  decide

/-- C8 amended: in the generated manifest an image receives a spacer
item exactly when portrait-only is off and the image is a double page,
or keep-double-page-if-split is off and it is a `part=1` half, or it is
a `part=0` image equal to the last image of the list (the spacer backing
the trailing blank page). -/
theorem manifest_space_condition :
    (∀ (o : Content) (img : EPUBImage),
      (manifestWithSpace o (o.Images.getLastD default) img = true ↔
        (o.ImageOptions.View.PortraitOnly = false ∧
          (img.DoublePage = true ∨
            (o.ImageOptions.KeepDoublePageIfSplit = false ∧ img.Part = 1) ∨
            (img.Part = 0 ∧ img = o.Images.getLastD default)))))
    ∧ (∀ o : Content, getManifest o =
        manifestBase o ++ manifestImageTags o ++ manifestPageTags o ++ manifestSpaceTags o)
    ∧ (∀ o : Content, manifestSpaceTags o =
        (o.Images.filter fun img =>
            manifestWithSpace o (o.Images.getLastD default) img).map
          fun img => ⟨img.SpaceKey, img.SpacePath, "", "application/xhtml+xml"⟩) := by
  refine ⟨?_, fun o => rfl, fun o => rfl⟩
  intro o img
  simp [manifestWithSpace, and_assoc, or_assoc]

theorem manifest_space_condition_witness :
    manifestWithSpace oLastSingle (oLastSingle.Images.getLastD default) imgSingle1 = true :=
  (manifest_space_condition.1 oLastSingle imgSingle1).mpr (by decide)
